import Mathlib

/-!
Verification development for the auto-fixer pipeline repository.

The repository the spec describes is a two-part system: a Python/FastAPI
backend running the orchestration engine (priority scoring, circuit
breakers, retry policy, per-ticket stage state machine) and a React
frontend (dashboard components, WebSocket provider, API config). Only
the frontend sources, the README, docker-compose and .env.example are
present under src; the backend modules are referenced by configuration
and documentation but their code is absent. Definitions below that embed
backend behaviour are therefore modelled from the spec and are marked as
such in their doc comments; all other definitions are shallow embeddings
of the frontend TypeScript code.
-/

namespace AutoFixer

/-! ## Backend availability check (src/src/config/api.ts) -/

/-- Outcome of the fetch of the health endpoint, as observable by the
frontend: either the request completed within the 2000 ms abort timeout
with a response whose ok flag is given, or it ended in a network error,
or the abort signal fired (timeout). -/
inductive FetchOutcome where
  | response (ok : Bool)
  | networkError
  | timedOut
deriving DecidableEq, Repr

/-- Embedding of isBackendAvailable from src/src/config/api.ts: the
function returns response.ok when the fetch completes, and the catch
block returns false on every thrown error (network failure or the
TimeoutError raised by AbortSignal.timeout(2000)). -/
def isBackendAvailable : FetchOutcome → Bool
  | .response ok => ok
  | .networkError => false
  | .timedOut => false

/-! ## Stage progress (PipelineMonitor, src/unnamed/part_005) -/

/-- The fixed stage list used by getStageProgress in the
PipelineMonitor component. -/
def stages : List String :=
  ["intake", "planning", "development", "qa", "communication", "completed"]

/-- Embedding of getStageProgress: the TypeScript code computes
stages.indexOf(currentStage) and returns ((index + 1) / stages.length) * 100
when the index is nonnegative, 0 otherwise. List.indexOf returns the
list length exactly when the element is absent, which mirrors the
JavaScript indexOf returning -1 in that case. -/
def getStageProgress (currentStage : String) : ℚ :=
  let i := stages.indexOf currentStage
  if i < stages.length then ((i + 1 : ℚ) / stages.length) * 100 else 0

lemma getStageProgress_intake : getStageProgress "intake" = 50 / 3 := by
  have h : stages.indexOf "intake" = 0 := by decide
  have hl : stages.length = 6 := rfl
  rw [getStageProgress, h, hl]; norm_num

lemma getStageProgress_planning : getStageProgress "planning" = 100 / 3 := by
  have h : stages.indexOf "planning" = 1 := by decide
  have hl : stages.length = 6 := rfl
  rw [getStageProgress, h, hl]; norm_num

lemma getStageProgress_development : getStageProgress "development" = 50 := by
  have h : stages.indexOf "development" = 2 := by decide
  have hl : stages.length = 6 := rfl
  rw [getStageProgress, h, hl]; norm_num

lemma getStageProgress_qa : getStageProgress "qa" = 200 / 3 := by
  have h : stages.indexOf "qa" = 3 := by decide
  have hl : stages.length = 6 := rfl
  rw [getStageProgress, h, hl]; norm_num

lemma getStageProgress_communication : getStageProgress "communication" = 250 / 3 := by
  have h : stages.indexOf "communication" = 4 := by decide
  have hl : stages.length = 6 := rfl
  rw [getStageProgress, h, hl]; norm_num

lemma getStageProgress_completed : getStageProgress "completed" = 100 := by
  have h : stages.indexOf "completed" = 5 := by decide
  have hl : stages.length = 6 := rfl
  rw [getStageProgress, h, hl]; norm_num

lemma getStageProgress_not_mem {s : String} (h : s ∉ stages) :
    getStageProgress s = 0 := by
  have hi : stages.indexOf s = stages.length := List.indexOf_eq_length.mpr h
  rw [getStageProgress, hi]
  simp

lemma mem_stages_cases {s : String} (h : s ∈ stages) :
    s = "intake" ∨ s = "planning" ∨ s = "development" ∨ s = "qa" ∨
      s = "communication" ∨ s = "completed" := by
  simpa [stages] using h

lemma getStageProgress_formula (i : ℕ) (h : i < stages.length) :
    getStageProgress (stages.get ⟨i, h⟩) = ((i + 1 : ℚ) / 6) * 100 := by
  have h6 : i < 6 := by simpa using h
  interval_cases i
  · show getStageProgress "intake" = _
    rw [getStageProgress_intake]; norm_num
  · show getStageProgress "planning" = _
    rw [getStageProgress_planning]; norm_num
  · show getStageProgress "development" = _
    rw [getStageProgress_development]; norm_num
  · show getStageProgress "qa" = _
    rw [getStageProgress_qa]; norm_num
  · show getStageProgress "communication" = _
    rw [getStageProgress_communication]; norm_num
  · show getStageProgress "completed" = _
    rw [getStageProgress_completed]; norm_num

/-! ## Priority scorer (backend module absent from src) -/

/-- Reported priority of a ticket, the four levels the configuration
assigns weights to. -/
inductive ReportedPriority where
  | critical
  | high
  | medium
  | low
deriving DecidableEq, Repr

/-- Modelled from the spec: configuration of the priority scorer. These
are the knobs .env.example exposes as PRIORITY_CRITICAL_WEIGHT,
PRIORITY_HIGH_WEIGHT, PRIORITY_MEDIUM_WEIGHT, PRIORITY_LOW_WEIGHT,
PRIORITY_ERROR_TRACE_BOOST, PRIORITY_URGENT_KEYWORD_BOOST and
URGENT_KEYWORDS; the backend module that reads them is not among the
sources. -/
structure ScoreConfig where
  criticalWeight : ℚ
  highWeight : ℚ
  mediumWeight : ℚ
  lowWeight : ℚ
  errorTraceBoost : ℚ
  urgentKeywordBoost : ℚ
  urgentKeywords : List String
deriving DecidableEq, Repr

/-- Default configuration values taken from src/.env.example lines 48 to
53 and 64. -/
def defaultScoreConfig : ScoreConfig where
  criticalWeight := 1
  highWeight := 4 / 5
  mediumWeight := 1 / 2
  lowWeight := 1 / 5
  errorTraceBoost := 1 / 5
  urgentKeywordBoost := 3 / 10
  urgentKeywords := ["crash", "critical", "urgent", "blocking", "outage", "down"]

/-- Immutable ticket input of the scorer, per the data model section of
the spec: title, description, optional error trace (empty string for
absent) and reported priority. -/
structure Ticket where
  title : String
  description : String
  errorTrace : String
  priority : ReportedPriority
deriving DecidableEq, Repr

/-- Base weight per reported priority level. -/
def priorityWeight (cfg : ScoreConfig) : ReportedPriority → ℚ
  | .critical => cfg.criticalWeight
  | .high => cfg.highWeight
  | .medium => cfg.mediumWeight
  | .low => cfg.lowWeight

/-- Containment of one character list as a contiguous run in another. -/
def charListContains (needle : List Char) : List Char → Bool
  | [] => needle.isEmpty
  | c :: tl => needle.isPrefixOf (c :: tl) || charListContains needle tl

/-- Case-insensitive substring test on strings. -/
def containsCaseInsensitive (hay needle : String) : Bool :=
  charListContains (needle.toList.map Char.toLower) (hay.toList.map Char.toLower)

/-- Modelled from the spec: a ticket matches when its title or
description contains any configured urgent keyword as a case-insensitive
substring. -/
def hasUrgentKeyword (cfg : ScoreConfig) (t : Ticket) : Bool :=
  cfg.urgentKeywords.any fun k =>
    containsCaseInsensitive t.title k || containsCaseInsensitive t.description k

/-- Clamp of a rational to the unit interval. -/
def clamp01 (q : ℚ) : ℚ := max 0 (min 1 q)

/-- Modelled from the spec: the priority score is the base weight of the
reported priority, plus the error trace boost when the error trace is
non-empty, plus the urgent keyword boost when a configured keyword
occurs in the title or description, the sum clamped to the unit
interval. The backend PriorityScorer module is not among the sources. -/
def priorityScore (cfg : ScoreConfig) (t : Ticket) : ℚ :=
  clamp01 (priorityWeight cfg t.priority
    + (if t.errorTrace ≠ "" then cfg.errorTraceBoost else 0)
    + (if hasUrgentKeyword cfg t then cfg.urgentKeywordBoost else 0))

lemma clamp01_nonneg (q : ℚ) : 0 ≤ clamp01 q := le_max_left 0 _

lemma clamp01_le_one (q : ℚ) : clamp01 q ≤ 1 :=
  max_le (by norm_num) (min_le_left _ _)

/-- Example ticket from the testable properties section of the spec:
critical priority, error trace present, description mentioning a crash. -/
def exampleCriticalTicket : Ticket where
  title := "service outage"
  description := "service outage, crash on startup"
  errorTrace := "TypeError at line 3"
  priority := .critical

/-- Example ticket from the testable properties section of the spec:
medium priority, no error trace, no urgent keyword. -/
def exampleMediumTicket : Ticket where
  title := "typo in settings page"
  description := "label misspelled"
  errorTrace := ""
  priority := .medium

/-- Variant of the medium ticket with different wording, still without
error trace or urgent keyword. -/
def exampleMediumTicketB : Ticket where
  title := "minor text issue"
  description := "wrong wording on the settings page"
  errorTrace := ""
  priority := .medium

/-! ## Retry policy (backend module absent from src) -/

/-- Modelled from the spec: retry configuration with the maximum retry
count (AGENT_MAX_RETRIES in .env.example, default 3), the base backoff
delay and the upper bound on the computed delay, in milliseconds. -/
structure RetryConfig where
  maxRetries : ℕ
  baseDelayMs : ℕ
  maxDelayMs : ℕ
deriving DecidableEq, Repr

/-- Decision on a transient failure: either schedule one re-attempt
after a delay, carrying the incremented attempt count, or signal
exhaustion to the state machine. -/
inductive RetryDecision where
  | retryAfter (delayMs : ℕ) (newAttemptCount : ℕ)
  | exhausted
deriving DecidableEq, Repr

/-- Modelled from the spec: on a transient failure with the given count
of prior attempts, when the count is below max retries the policy
increments the attempt count, computes the exponential backoff delay as
the base delay times two to the power of the incremented count minus
one, capped by the configured upper bound, and schedules the
re-attempt; otherwise it signals exhaustion and schedules nothing. The
backend RetryPolicy module is not among the sources. -/
def onTransientFailure (cfg : RetryConfig) (attemptCount : ℕ) : RetryDecision :=
  if attemptCount < cfg.maxRetries then
    .retryAfter (min (cfg.baseDelayMs * 2 ^ (attemptCount + 1 - 1)) cfg.maxDelayMs)
      (attemptCount + 1)
  else
    .exhausted

/-! ## WebSocket reconnection (src/unnamed/part_010) -/

/-- The maxReconnectAttempts constant of the WebSocketProvider. -/
def maxReconnectAttempts : ℕ := 5

/-- Embedding of the reconnection logic of the onclose handler: with n
prior consecutive failed attempts recorded in the reconnectAttempts
ref, when n is below the maximum the handler computes the delay of two
to the n times 1000 ms, increments the counter and schedules exactly
one reconnect; otherwise it schedules nothing and only shows the
connection lost notice. The result pairs the scheduled delay with the
new counter value. -/
def scheduleReconnect (n : ℕ) : Option (ℕ × ℕ) :=
  if n < maxReconnectAttempts then some (2 ^ n * 1000, n + 1) else none

/-- Embedding of the onopen handler effect on the counter: a successful
open resets reconnectAttempts to 0. -/
def onOpenReset (_n : ℕ) : ℕ := 0

/-- Total number of connect invocations in a run where every connect
ends in a close without a successful open, starting from counter value
n: one for the call itself plus those of the scheduled reconnects. -/
def connectInvocations (n : ℕ) : ℕ :=
  if n < maxReconnectAttempts then 1 + connectInvocations (n + 1) else 1
termination_by maxReconnectAttempts - n

/-! ## WebSocket message handling (src/unnamed/part_010) -/

/-- Parsed WebSocket message payload: the type tag and the fields the
handler reads. Fields absent from a concrete payload are the empty
string. -/
structure WsMessage where
  msgType : String
  ticketId : String
  status : String
  title : String
  message : String
  severity : String
deriving DecidableEq, Repr

/-- Observable effect of the message handler. Console output changes no
frontend state; toasts and dispatched browser events do. -/
inductive WsEffect where
  | toast (title description : String) (destructive : Bool)
  | browserEvent (name : String)
  | consoleLog (text : String)
deriving DecidableEq, Repr

/-- Embedding of the onmessage handler of the WebSocketProvider: a
payload that fails to parse as JSON reaches the catch block, which only
logs the parse error; a parsed message is dispatched on its type field;
the four known types produce toasts and custom browser events, every
other type falls to the default branch which only logs. The input is
none for a payload that fails JSON parsing. -/
def handleMessage : Option WsMessage → List WsEffect
  | none => [.consoleLog "Error parsing WebSocket message"]
  | some m =>
    .consoleLog "WebSocket message received" ::
    (if m.msgType = "ticket_update" then
      [.toast "Ticket Updated" (m.ticketId ++ ": " ++ m.status) false,
       .browserEvent "ticket-update"]
    else if m.msgType = "agent_status" then
      [.consoleLog "Agent status update", .browserEvent "agent-status"]
    else if m.msgType = "system_alert" then
      [.toast (if m.title = "" then "System Alert" else m.title) m.message
        (m.severity = "error")]
    else if m.msgType = "log_entry" then
      [.browserEvent "new-log"]
    else
      [.consoleLog "Unknown message type"])

/-- State changing effects are the toasts and the dispatched browser
events; console output changes nothing. -/
def stateChanging : WsEffect → Bool
  | .toast _ _ _ => true
  | .browserEvent _ => true
  | .consoleLog _ => false

/-- The four message types the handler acts on. -/
def handledTypes : List String :=
  ["ticket_update", "agent_status", "system_alert", "log_entry"]

/-- Modelled from the spec: the typed notifications the backend event
stream emits, per the external interfaces section and the README; the
backend EventBroadcaster module is not among the sources. -/
def emittedEventTypes : List String :=
  ["ticket_update", "agent_status", "system_alert"]

/-! ## Ticket actions (src/src/components/dashboard/TicketTable.tsx) -/

/-- Embedding of the render condition of the retry action button: the
TicketTable renders the retry button exactly when the ticket status
equals the string failed (line 332 of TicketTable.tsx). -/
def showRetryAction (status : String) : Bool := status == "failed"

/-- Embedding of the render condition of the escalate action button:
the TicketTable renders the escalate button exactly when the ticket
status is failed or in progress (line 342 of TicketTable.tsx). -/
def showEscalateAction (status : String) : Bool :=
  ["failed", "in_progress"].contains status

/-! ## Pipeline stage state machine (backend module absent from src) -/

/-- The five processing stages of the pipeline, in the order the spec
fixes. -/
inductive Stage where
  | intake
  | planning
  | development
  | qa
  | communication
deriving DecidableEq, Repr

/-- Phase of a pipeline context: either working a stage, or in one of
the three terminal states. -/
inductive Phase where
  | atStage (s : Stage)
  | completed
  | failed
  | escalated
deriving DecidableEq, Repr

/-- Successor of a stage in the fixed pipeline order; the last stage
advances to the completed terminal phase. -/
def nextPhase : Stage → Phase
  | .intake => .atStage .planning
  | .planning => .atStage .development
  | .development => .atStage .qa
  | .qa => .atStage .communication
  | .communication => .completed

def Phase.isTerminal : Phase → Bool
  | .completed => true
  | .failed => true
  | .escalated => true
  | .atStage _ => false

/-- Modelled from the spec: the mutable per ticket orchestration state,
with the current phase, the stage to re-arm on retry, the attempt count
of the current stage, the append-only checkpoint list and the in-flight
marker. The backend PipelineContext module is not among the sources. -/
structure Ctx where
  phase : Phase
  lastStage : Stage
  attempts : ℕ
  checkpoints : List Stage
  inFlight : Bool
deriving DecidableEq, Repr

/-- Initial context on ticket creation. -/
def initCtx : Ctx where
  phase := .atStage .intake
  lastStage := .intake
  attempts := 0
  checkpoints := []
  inFlight := false

/-- Commands and stage outcomes driving the state machine. -/
inductive Cmd where
  | startStage
  | succeed
  | failTransient
  | failExhausted (escalate : Bool)
  | retryCmd
  | escalateCmd
deriving DecidableEq, Repr

/-- Modelled from the spec: one transition of the per ticket state
machine. A stage outcome applies only while the stage is in flight;
success appends the stage to the checkpoints and advances to the next
phase with the attempt count reset; a transient failure returns the
execution slot and bumps the attempt count; exhaustion moves to failed
or escalated following the escalation policy decision; the escalate
command forces escalated from any stage; terminal phases change only
through the retry command, which re-arms the last failed stage with the
attempt count reset. -/
def step (c : Ctx) : Cmd → Ctx
  | .startStage =>
    match c.phase with
    | .atStage _ => if c.inFlight then c else { c with inFlight := true }
    | _ => c
  | .succeed =>
    match c.phase with
    | .atStage s =>
      if c.inFlight then
        { c with phase := nextPhase s, lastStage := s, attempts := 0,
                 checkpoints := c.checkpoints ++ [s], inFlight := false }
      else c
    | _ => c
  | .failTransient =>
    match c.phase with
    | .atStage _ =>
      if c.inFlight then { c with attempts := c.attempts + 1, inFlight := false }
      else c
    | _ => c
  | .failExhausted esc =>
    match c.phase with
    | .atStage s =>
      if c.inFlight then
        { c with phase := if esc then .escalated else .failed, lastStage := s,
                 inFlight := false }
      else c
    | _ => c
  | .retryCmd =>
    match c.phase with
    | .failed =>
      { c with phase := .atStage c.lastStage, attempts := 0, inFlight := false }
    | .escalated =>
      { c with phase := .atStage c.lastStage, attempts := 0, inFlight := false }
    | _ => c
  | .escalateCmd =>
    match c.phase with
    | .atStage s =>
      { c with phase := .escalated, lastStage := s, inFlight := false }
    | _ => c

/-- Run of a command trace from a context. -/
def run (c : Ctx) : List Cmd → Ctx
  | [] => c
  | cmd :: rest => run (step c cmd) rest

/-- Stage recorded by one effective successful completion, if any. -/
def stepCompletion (c : Ctx) : Cmd → List Stage
  | .succeed =>
    match c.phase with
    | .atStage s => if c.inFlight then [s] else []
    | _ => []
  | _ => []

/-- Ordered list of the stages completed successfully along a command
trace. -/
def succeededStages (c : Ctx) : List Cmd → List Stage
  | [] => []
  | cmd :: rest => stepCompletion c cmd ++ succeededStages (step c cmd) rest

/-- Stages currently in flight for a context: at most the current one. -/
def inFlightStages (c : Ctx) : List Stage :=
  match c.phase, c.inFlight with
  | .atStage s, true => [s]
  | _, _ => []

lemma step_checkpoints (c : Ctx) (cmd : Cmd) :
    (step c cmd).checkpoints = c.checkpoints ++ stepCompletion c cmd := by
  cases cmd <;> cases hp : c.phase <;>
    simp [step, stepCompletion, hp] <;> split <;> simp

lemma run_checkpoints (c : Ctx) (cmds : List Cmd) :
    (run c cmds).checkpoints = c.checkpoints ++ succeededStages c cmds := by
  induction cmds generalizing c with
  | nil => simp [run, succeededStages]
  | cons cmd rest ih =>
      simp [run, succeededStages, ih (step c cmd), step_checkpoints,
        List.append_assoc]

lemma step_terminal {c : Ctx} (h : c.phase.isTerminal = true) {cmd : Cmd}
    (hcmd : cmd ≠ .retryCmd) : step c cmd = c := by
  cases cmd <;> cases hp : c.phase <;> simp_all [step, Phase.isTerminal]

lemma step_retry_rearm {c : Ctx}
    (h : c.phase = .failed ∨ c.phase = .escalated) :
    (step c .retryCmd).phase = .atStage c.lastStage
      ∧ (step c .retryCmd).attempts = 0 := by
  rcases h with h | h <;> simp [step, h]

/-- Concrete context that has reached the completed terminal phase. -/
def completedCtxExample : Ctx where
  phase := .completed
  lastStage := .communication
  attempts := 0
  checkpoints := [.intake, .planning, .development, .qa, .communication]
  inFlight := false

/-- Concrete context that failed at the development stage. -/
def failedCtxExample : Ctx where
  phase := .failed
  lastStage := .development
  attempts := 2
  checkpoints := [.intake, .planning]
  inFlight := false

/-- Concrete context with the qa stage in flight. -/
def inProgressCtxExample : Ctx where
  phase := .atStage .qa
  lastStage := .qa
  attempts := 1
  checkpoints := [.intake, .planning, .development]
  inFlight := true

/-- Concrete WebSocket message of a type the handler does not act on. -/
def exampleUnknownMessage : WsMessage where
  msgType := "heartbeat"
  ticketId := ""
  status := ""
  title := ""
  message := ""
  severity := ""

/-! ## Circuit breaker (backend module absent from src) -/

/-- Modelled from the spec: per dependency breaker configuration, the
consecutive failure threshold and the reset timeout in milliseconds. -/
structure CBConfig where
  failureThreshold : ℕ
  resetTimeoutMs : ℕ
deriving DecidableEq, Repr

/-- The three breaker states of the CircuitBreaker interface in
src/src/types/metrics.ts. -/
inductive CBState where
  | CLOSED
  | OPEN
  | HALF_OPEN
deriving DecidableEq, Repr

/-- Breaker bookkeeping: state, consecutive failure count and the time
of the last state transition. -/
structure Breaker where
  state : CBState
  failureCount : ℕ
  lastTransitionMs : ℕ
deriving DecidableEq, Repr

/-- Initial breaker: CLOSED with zero failures. -/
def initBreaker : Breaker where
  state := .CLOSED
  failureCount := 0
  lastTransitionMs := 0

/-- Result of a guarded call: the dependency outcome when the call is
allowed through, or the distinct circuit open error when denied. -/
inductive CallResult where
  | success
  | depFailure
  | circuitOpen
deriving DecidableEq, Repr

/-- Modelled from the spec: the gate evaluated at call time. CLOSED
lets the call pass; OPEN denies it, except that once the reset timeout
has elapsed since the OPEN transition the breaker moves to HALF_OPEN
and lets the single trial call pass; while the HALF_OPEN trial is in
flight further callers are treated as if the breaker were OPEN. -/
def allowRequest (cfg : CBConfig) (b : Breaker) (nowMs : ℕ) : Breaker × Bool :=
  match b.state with
  | .CLOSED => (b, true)
  | .OPEN =>
    if cfg.resetTimeoutMs ≤ nowMs - b.lastTransitionMs then
      ({ b with state := .HALF_OPEN, lastTransitionMs := nowMs }, true)
    else (b, false)
  | .HALF_OPEN => (b, false)

/-- Modelled from the spec: bookkeeping after an allowed call returns.
A success resets the consecutive failure count and closes the breaker
from HALF_OPEN; a failure increments the count, opens the breaker from
CLOSED when the threshold is reached and reopens it from HALF_OPEN,
restarting the reset timeout clock. -/
def onResult (cfg : CBConfig) (b : Breaker) (nowMs : ℕ) (ok : Bool) : Breaker :=
  if ok then
    match b.state with
    | .HALF_OPEN => { state := .CLOSED, failureCount := 0, lastTransitionMs := nowMs }
    | _ => { b with failureCount := 0 }
  else
    match b.state with
    | .HALF_OPEN => { b with state := .OPEN, lastTransitionMs := nowMs }
    | .CLOSED =>
      if cfg.failureThreshold ≤ b.failureCount + 1 then
        { state := .OPEN, failureCount := b.failureCount + 1,
          lastTransitionMs := nowMs }
      else { b with failureCount := b.failureCount + 1 }
    | .OPEN => b

/-- Modelled from the spec: one guarded call against the dependency,
where depOk tells whether the dependency itself would succeed now. A
denied call fails fast with the distinct circuit open result and never
touches the dependency. The backend CircuitBreaker module is not among
the sources. -/
def guardedCall (cfg : CBConfig) (b : Breaker) (nowMs : ℕ) (depOk : Bool) :
    Breaker × CallResult :=
  let gate := allowRequest cfg b nowMs
  if gate.2 then
    (onResult cfg gate.1 nowMs depOk, if depOk then .success else .depFailure)
  else (gate.1, .circuitOpen)

/-! ## Claim theorems -/

/-- C1: for every ticket the computed priority score lies in the unit
interval and is a pure deterministic function of the reported priority,
the presence of an error trace, the keyword match and the configured
weights; the default configuration carries the documented base weights
(critical 1.0, high 0.8, medium 0.5, low 0.2) and boosts (error trace
0.2, urgent keyword 0.3); on the two example tickets of the spec the
clamped sum evaluates to 1 and one half. -/
theorem C1_priorityScore_bounded_pure :
    (∀ cfg t, 0 ≤ priorityScore cfg t ∧ priorityScore cfg t ≤ 1)
  ∧ (∀ cfg t₁ t₂, t₁.priority = t₂.priority →
        ((t₁.errorTrace = "") ↔ (t₂.errorTrace = "")) →
        hasUrgentKeyword cfg t₁ = hasUrgentKeyword cfg t₂ →
        priorityScore cfg t₁ = priorityScore cfg t₂)
  ∧ priorityWeight defaultScoreConfig .critical = 1
  ∧ priorityWeight defaultScoreConfig .high = 4 / 5
  ∧ priorityWeight defaultScoreConfig .medium = 1 / 2
  ∧ priorityWeight defaultScoreConfig .low = 1 / 5
  ∧ defaultScoreConfig.errorTraceBoost = 1 / 5
  ∧ defaultScoreConfig.urgentKeywordBoost = 3 / 10
  ∧ priorityScore defaultScoreConfig exampleCriticalTicket = 1
  ∧ priorityScore defaultScoreConfig exampleMediumTicket = 1 / 2 := by
  refine ⟨fun cfg t => ⟨clamp01_nonneg _, clamp01_le_one _⟩, ?_, rfl, rfl, rfl,
    rfl, rfl, rfl, ?_, ?_⟩
  · intro cfg t₁ t₂ hp he hk
    unfold priorityScore
    rw [hp, hk]
    by_cases h : t₁.errorTrace = ""
    · simp [h, he.mp h]
    · have h2 : ¬ t₂.errorTrace = "" := fun hh => h (he.mpr hh)
      simp [h, h2]
  · have hk : hasUrgentKeyword defaultScoreConfig exampleCriticalTicket = true := by
      decide
    have htr : exampleCriticalTicket.errorTrace ≠ "" := by decide
    rw [priorityScore, hk]
    simp only [htr, ite_true, if_pos htr]
    show clamp01 (1 + 1 / 5 + 3 / 10) = 1
    rw [clamp01]
    norm_num [min_def, max_def]
  · have hk : hasUrgentKeyword defaultScoreConfig exampleMediumTicket = false := by
      decide
    have htr : ¬ exampleMediumTicket.errorTrace ≠ "" := by decide
    rw [priorityScore, hk]
    simp only [htr, ite_false, if_neg htr]
    show clamp01 (1 / 2 + 0 + 0) = 1 / 2
    rw [clamp01]
    norm_num [min_def, max_def]

/-- C1 witness: the purity part applied to two concrete medium tickets
that differ in wording but agree on priority, error trace presence and
keyword match. -/
theorem C1_witness :
    priorityScore defaultScoreConfig exampleMediumTicket
      = priorityScore defaultScoreConfig exampleMediumTicketB :=
  C1_priorityScore_bounded_pure.2.1 defaultScoreConfig exampleMediumTicket
    exampleMediumTicketB rfl (by decide) (by decide)

/-- C3: with max retries 3 and base delay 1000 ms, transient failures
with prior attempt counts 0, 1 and 2 schedule re-attempts after 1000,
2000 and 4000 ms and increment the attempt count; at attempt count 3
the policy signals exhaustion and schedules nothing; every computed
delay is capped by the configured upper bound. -/
theorem C3_retryPolicy (cap : ℕ) (hcap : 4000 ≤ cap) :
    onTransientFailure ⟨3, 1000, cap⟩ 0 = .retryAfter 1000 1
  ∧ onTransientFailure ⟨3, 1000, cap⟩ 1 = .retryAfter 2000 2
  ∧ onTransientFailure ⟨3, 1000, cap⟩ 2 = .retryAfter 4000 3
  ∧ onTransientFailure ⟨3, 1000, cap⟩ 3 = .exhausted
  ∧ (∀ cfg : RetryConfig, ∀ n d k,
        onTransientFailure cfg n = .retryAfter d k →
          d ≤ cfg.maxDelayMs ∧ k = n + 1) := by
  refine ⟨?_, ?_, ?_, ?_, ?_⟩
  · rw [onTransientFailure, if_pos (by norm_num)]
    norm_num
    omega
  · rw [onTransientFailure, if_pos (by norm_num)]
    norm_num
    omega
  · rw [onTransientFailure, if_pos (by norm_num)]
    norm_num
    omega
  · rw [onTransientFailure, if_neg (by norm_num)]
  · intro cfg n d k h
    by_cases hn : n < cfg.maxRetries
    · rw [onTransientFailure, if_pos hn] at h
      injection h with h1 h2
      exact ⟨h1 ▸ min_le_right _ _, h2.symm⟩
    · rw [onTransientFailure, if_neg hn] at h
      simp at h

/-- C3 witness: with the cap at 30000 ms the fourth consecutive
transient failure signals exhaustion. -/
theorem C3_witness : onTransientFailure ⟨3, 1000, 30000⟩ 3 = .exhausted :=
  (C3_retryPolicy 30000 (by decide)).2.2.2.1

/-- C7: the pipeline stage order of the dashboard is intake, planning,
development, qa, communication, completed; for the stage at index i the
progress function yields ((i + 1) / 6) * 100, so progress is strictly
increasing along the order and equals 100 exactly at completed; every
string outside the list, among them failed and escalated, maps to 0;
the result always lies between 0 and 100. -/
theorem C7_stageProgress_spec :
    (∀ i, ∀ h : i < stages.length,
        getStageProgress (stages.get ⟨i, h⟩) = ((i + 1 : ℚ) / 6) * 100)
  ∧ (∀ i j, ∀ hi : i < stages.length, ∀ hj : j < stages.length, i < j →
        getStageProgress (stages.get ⟨i, hi⟩)
          < getStageProgress (stages.get ⟨j, hj⟩))
  ∧ (∀ s, getStageProgress s = 100 ↔ s = "completed")
  ∧ (∀ s, s ∉ stages → getStageProgress s = 0)
  ∧ getStageProgress "failed" = 0
  ∧ getStageProgress "escalated" = 0
  ∧ (∀ s, 0 ≤ getStageProgress s ∧ getStageProgress s ≤ 100) := by
  have hmono : ∀ i j, ∀ hi : i < stages.length, ∀ hj : j < stages.length, i < j →
      getStageProgress (stages.get ⟨i, hi⟩)
        < getStageProgress (stages.get ⟨j, hj⟩) := by
    intro i j hi hj hij
    rw [getStageProgress_formula i hi, getStageProgress_formula j hj]
    have hq : (i : ℚ) < j := by exact_mod_cast hij
    linarith
  refine ⟨getStageProgress_formula, hmono, ?_,
    fun s h => getStageProgress_not_mem h,
    getStageProgress_not_mem (by decide), getStageProgress_not_mem (by decide), ?_⟩
  · intro s
    constructor
    · intro h
      by_cases hm : s ∈ stages
      · rcases mem_stages_cases hm with h1 | h1 | h1 | h1 | h1 | h1 <;> subst h1
        · rw [getStageProgress_intake] at h; norm_num at h
        · rw [getStageProgress_planning] at h; norm_num at h
        · rw [getStageProgress_development] at h; norm_num at h
        · rw [getStageProgress_qa] at h; norm_num at h
        · rw [getStageProgress_communication] at h; norm_num at h
        · rfl
      · rw [getStageProgress_not_mem hm] at h; norm_num at h
    · rintro rfl
      exact getStageProgress_completed
  · intro s
    by_cases hm : s ∈ stages
    · rcases mem_stages_cases hm with h1 | h1 | h1 | h1 | h1 | h1 <;> subst h1 <;>
        constructor <;>
        simp only [getStageProgress_intake, getStageProgress_planning,
          getStageProgress_development, getStageProgress_qa,
          getStageProgress_communication, getStageProgress_completed] <;>
        norm_num
    · rw [getStageProgress_not_mem hm]
      norm_num

/-- C7 witness: the terminal failure status is outside the stage list
and maps to progress 0. -/
theorem C7_witness : getStageProgress "failed" = 0 :=
  C7_stageProgress_spec.2.2.2.1 "failed" (by decide)

/-- C9: the reconnection loop of the WebSocketProvider schedules at
most one reconnect per close, with delays 1, 2, 4, 8 and 16 seconds for
prior failure counts 0 through 4; from count 5 on no attempt is
scheduled; a successful open resets the count to 0; in a run where no
open ever succeeds, connect is invoked exactly 6 times. -/
theorem C9_reconnect_bounded :
    scheduleReconnect 0 = some (1000, 1)
  ∧ scheduleReconnect 1 = some (2000, 2)
  ∧ scheduleReconnect 2 = some (4000, 3)
  ∧ scheduleReconnect 3 = some (8000, 4)
  ∧ scheduleReconnect 4 = some (16000, 5)
  ∧ (∀ n, maxReconnectAttempts ≤ n → scheduleReconnect n = none)
  ∧ (∀ n, onOpenReset n = 0)
  ∧ connectInvocations 0 = 6 := by
  refine ⟨by decide, by decide, by decide, by decide, by decide, ?_,
    fun n => rfl, ?_⟩
  · intro n h
    rw [scheduleReconnect, if_neg (by omega)]
  · simp [connectInvocations, maxReconnectAttempts]

/-- C9 witness: at counter value 5 the close handler schedules no
further reconnect. -/
theorem C9_witness : scheduleReconnect 5 = none :=
  C9_reconnect_bounded.2.2.2.2.2.1 5 (by decide)

/-- C10: isBackendAvailable is total and returns true exactly when the
health request completes within the timeout with an ok response; every
network error, timeout or non-ok response yields false. -/
theorem C10_isBackendAvailable_total :
    (∀ o, isBackendAvailable o = true ↔ o = .response true)
  ∧ isBackendAvailable .networkError = false
  ∧ isBackendAvailable .timedOut = false
  ∧ (∀ ok, isBackendAvailable (.response ok) = ok) := by
  refine ⟨fun o => ?_, rfl, rfl, fun ok => rfl⟩
  cases o <;> simp [isBackendAvailable]

/-- C2: every breaker starts CLOSED with zero failures; from CLOSED a
failure below the threshold of 5 keeps the breaker CLOSED and counts
it, while the fifth consecutive failure opens the breaker; while OPEN
and before the reset timeout every call fails immediately with the
distinct circuit open result; once the timeout has elapsed the next
call moves the breaker to HALF_OPEN and is allowed through; a
HALF_OPEN success closes the breaker with the failure count reset to
0; a HALF_OPEN failure reopens it and restarts the timeout clock. -/
theorem C2_circuitBreaker (cfg : CBConfig) (hthr : cfg.failureThreshold = 5) :
    initBreaker.state = .CLOSED
  ∧ initBreaker.failureCount = 0
  ∧ (∀ b now, b.state = .CLOSED → b.failureCount + 1 < 5 →
        (guardedCall cfg b now false).1.state = .CLOSED
      ∧ (guardedCall cfg b now false).1.failureCount = b.failureCount + 1
      ∧ (guardedCall cfg b now false).2 = .depFailure)
  ∧ (∀ b now, b.state = .CLOSED → b.failureCount = 4 →
        (guardedCall cfg b now false).1.state = .OPEN
      ∧ (guardedCall cfg b now false).1.lastTransitionMs = now)
  ∧ (∀ b now depOk, b.state = .OPEN →
        now - b.lastTransitionMs < cfg.resetTimeoutMs →
        guardedCall cfg b now depOk = (b, .circuitOpen))
  ∧ (∀ b now, b.state = .OPEN → cfg.resetTimeoutMs ≤ now - b.lastTransitionMs →
        (allowRequest cfg b now).1.state = .HALF_OPEN
      ∧ (allowRequest cfg b now).2 = true
      ∧ (∀ depOk, (guardedCall cfg b now depOk).2 ≠ .circuitOpen))
  ∧ (∀ b now, b.state = .HALF_OPEN →
        onResult cfg b now true
          = { state := .CLOSED, failureCount := 0, lastTransitionMs := now })
  ∧ (∀ b now, b.state = .HALF_OPEN →
        (onResult cfg b now false).state = .OPEN
      ∧ (onResult cfg b now false).lastTransitionMs = now)
  ∧ CallResult.circuitOpen ≠ CallResult.depFailure
  ∧ CallResult.circuitOpen ≠ CallResult.success
  ∧ ((List.replicate 5 false).foldl
        (fun b r => (guardedCall ⟨5, 30000⟩ b 0 r).1) initBreaker).state
      = .OPEN := by
  refine ⟨rfl, rfl, ?_, ?_, ?_, ?_, ?_, ?_, by decide, by decide, by decide⟩
  · intro b now hb hcount
    have hc : ¬ 5 ≤ b.failureCount + 1 := by omega
    simp [guardedCall, allowRequest, hb, onResult, hthr, hc]
  · intro b now hb hcount
    have hc : 5 ≤ b.failureCount + 1 := by omega
    simp [guardedCall, allowRequest, hb, onResult, hthr, hc]
  · intro b now depOk hb htime
    have hc : ¬ cfg.resetTimeoutMs ≤ now - b.lastTransitionMs := by omega
    simp [guardedCall, allowRequest, hb, hc]
  · intro b now hb htime
    simp only [guardedCall, allowRequest, hb]
    rw [if_pos htime]
    refine ⟨rfl, rfl, fun depOk => ?_⟩
    cases depOk <;> simp [onResult]
  · intro b now hb
    simp [onResult, hb]
  · intro b now hb
    simp [onResult, hb]

/-- C2 witness: a HALF_OPEN trial success closes the breaker with the
failure count reset, at concrete inputs. -/
theorem C2_witness :
    onResult ⟨5, 30000⟩ ⟨.HALF_OPEN, 3, 1000⟩ 5000 true
      = ⟨.CLOSED, 0, 5000⟩ :=
  (C2_circuitBreaker ⟨5, 30000⟩ rfl).2.2.2.2.2.2.1 ⟨.HALF_OPEN, 3, 1000⟩ 5000 rfl

/-- C4: checkpoints only ever grow by appending; over any command
trace the checkpoint list equals the previous checkpoints followed by
the ordered stages completed successfully along the trace, and from the
initial context it equals exactly the ordered completed stages; at most
one stage is in flight at any time; a context in a terminal phase is
unchanged by every command except retry; retry moves a failed or
escalated context out of the terminal phase. -/
theorem C4_pipeline_invariants :
    (∀ c : Ctx, ∀ cmd : Cmd, ∃ e, (step c cmd).checkpoints = c.checkpoints ++ e)
  ∧ (∀ c : Ctx, ∀ cmds : List Cmd,
        (run c cmds).checkpoints = c.checkpoints ++ succeededStages c cmds)
  ∧ (∀ cmds : List Cmd,
        (run initCtx cmds).checkpoints = succeededStages initCtx cmds)
  ∧ (∀ c : Ctx, (inFlightStages c).length ≤ 1)
  ∧ (∀ c : Ctx, ∀ cmd, c.phase.isTerminal = true → cmd ≠ .retryCmd →
        step c cmd = c)
  ∧ (∀ c : Ctx, c.phase = .failed ∨ c.phase = .escalated →
        (step c .retryCmd).phase = .atStage c.lastStage
      ∧ (step c .retryCmd).phase.isTerminal = false
      ∧ (step c .retryCmd).attempts = 0) := by
  refine ⟨fun c cmd => ⟨stepCompletion c cmd, step_checkpoints c cmd⟩,
    run_checkpoints, ?_, ?_, fun c cmd h hc => step_terminal h hc, ?_⟩
  · intro cmds
    simpa [initCtx] using run_checkpoints initCtx cmds
  · intro c
    cases hp : c.phase <;> cases hf : c.inFlight <;>
      simp [inFlightStages, hp, hf]
  · intro c h
    refine ⟨(step_retry_rearm h).1, ?_, (step_retry_rearm h).2⟩
    rcases h with h | h <;> simp [step, h, Phase.isTerminal]

/-- C4 witness: a completed context is unchanged by a further success
outcome, at concrete inputs. -/
theorem C4_witness :
    step completedCtxExample .succeed = completedCtxExample :=
  C4_pipeline_invariants.2.2.2.2.1 completedCtxExample .succeed (by decide)
    (by decide)

/-- C5 counterexample: the dashboard does not offer the retry action
for a ticket whose status is escalated, contradicting availability of
retry for failed and escalated tickets alike. -/
theorem C5_counterexample : showRetryAction "escalated" = false := by decide

/-- C5 amended: the retry action is offered exactly for tickets with
status failed; the modelled retry command re-arms a failed context at
its last failed stage with the attempt count reset, re-entering that
stage as attempt one. -/
theorem C5_amended_retry :
    (∀ s, showRetryAction s = true ↔ s = "failed")
  ∧ (∀ c : Ctx, c.phase = .failed →
        (step c .retryCmd).phase = .atStage c.lastStage
      ∧ (step c .retryCmd).attempts = 0) := by
  refine ⟨fun s => ?_, fun c h => step_retry_rearm (Or.inl h)⟩
  simp [showRetryAction]

/-- C5 witness: the retry action is offered for a failed ticket, and
the modelled retry command re-enters the last failed stage, at concrete
inputs. -/
theorem C5_witness :
    showRetryAction "failed" = true
  ∧ (step failedCtxExample .retryCmd).phase = .atStage .development :=
  ⟨(C5_amended_retry.1 "failed").mpr rfl,
   (C5_amended_retry.2 failedCtxExample rfl).1⟩

/-- C6 counterexample: a ticket with status todo is in a non-terminal
state yet the dashboard does not offer the escalate action for it, so
escalate is not available in every non-terminal state. -/
theorem C6_counterexample : showEscalateAction "todo" = false := by decide

/-- C6 amended: the escalate action is offered exactly for tickets
with status failed or in progress; the modelled escalate command
transitions a context at any stage to the escalated terminal state. -/
theorem C6_amended_escalate :
    (∀ s, showEscalateAction s = true ↔ s = "failed" ∨ s = "in_progress")
  ∧ (∀ c : Ctx, ∀ st, c.phase = .atStage st →
        (step c .escalateCmd).phase = .escalated) := by
  refine ⟨fun s => ?_, fun c st h => by simp [step, h]⟩
  simp [showEscalateAction]

/-- C6 witness: the escalate action is offered for an in-progress
ticket, and the modelled escalate command reaches the escalated phase,
at concrete inputs. -/
theorem C6_witness :
    showEscalateAction "in_progress" = true
  ∧ (step inProgressCtxExample .escalateCmd).phase = .escalated :=
  ⟨(C6_amended_escalate.1 "in_progress").mpr (Or.inr rfl),
   C6_amended_escalate.2 inProgressCtxExample .qa rfl⟩

/-- C8: the frontend message handler changes no state on a payload
that fails JSON parsing, changes no state on any message whose type is
outside the four handled types, and acts with at least one state
changing effect on each of the four handled types; the handler is a
total function, so it never throws. -/
theorem C8_wsHandler_safe :
    ((handleMessage none).filter stateChanging = [])
  ∧ (∀ m : WsMessage, m.msgType ∉ handledTypes →
        (handleMessage (some m)).filter stateChanging = [])
  ∧ (∀ m : WsMessage, m.msgType ∈ handledTypes →
        (handleMessage (some m)).filter stateChanging ≠ [])
  ∧ (∀ t, t ∈ emittedEventTypes → t ∈ handledTypes) := by
  refine ⟨rfl, ?_, ?_, by decide⟩
  · intro m hm
    simp [handledTypes] at hm
    obtain ⟨h1, h2, h3, h4⟩ := hm
    simp [handleMessage, h1, h2, h3, h4, stateChanging]
  · intro m hm
    simp [handledTypes] at hm
    rcases hm with h | h | h | h <;> simp [handleMessage, h, stateChanging]

/-- C8 witness: a message of an unhandled type produces no state
changing effect, at a concrete input. -/
theorem C8_witness :
    (handleMessage (some exampleUnknownMessage)).filter stateChanging = [] :=
  C8_wsHandler_safe.2.1 exampleUnknownMessage (by decide)

end AutoFixer
